import Mathlib

/-!
Verification of the Fitness Tracker application's logic-bearing code.

The repository ships a React frontend (under `frontend/src`) that computes
dashboard statistics, goal-progress displays, a BMI calculator, and
error-handling fallbacks around the REST fetches.  The analytics backend
(streak calculator and goal projection) is described by the specification;
its endpoints are called from the frontend but its implementation is not
part of the shipped sources, so those two components are modelled from the
specification's own algorithm descriptions.

All numeric values are modelled as rationals (`ℚ`); user identifiers are
strings (the API uses UUID primary keys); fallible fetches are modelled as
`Except` values; optional / possibly-missing JSON fields are `Option`.
-/

namespace FitnessTracker

/-- A workout record as consumed by the frontend: the user reference and the
`calories_burned` field (possibly missing in the JSON payload). -/
structure Workout where
  user_id : String
  calories_burned : Option ℚ
deriving Repr, DecidableEq

/-- A fitness goal as consumed by the frontend. -/
structure Goal where
  user_id : String
  current_value : ℚ
  target_value : ℚ
  status : String
deriving Repr, DecidableEq

/-- A user record returned by the `/users` endpoint. -/
structure User where
  id : String
  username : String
deriving Repr, DecidableEq

/-- A goal prediction object as rendered by `GoalPredictions`; only the
`on_track` field matters for the badge logic.  `none` models a missing /
`undefined` field. -/
structure Prediction where
  on_track : Option Bool
deriving Repr, DecidableEq

/-- The response shape of the `/ai/predict-goals` endpoint as used by
`predictGoals` in `services/api.js`. -/
structure PredictGoalsResponse where
  predictions : List Prediction
  count : Nat
  success : Bool
deriving Repr, DecidableEq

/-- The response shape of the `/analytics/streak` endpoint; `current_streak`
may be absent (`streakData?.current_streak`). -/
structure StreakResponse where
  current_streak : Option Nat
deriving Repr, DecidableEq

/-! ## Dashboard computations (`components/Dashboard.jsx`)

`filteredWorkouts` / `filteredGoals` mirror
`selectedUser ? workouts.filter((w) => w.user_id === selectedUser) : workouts`;
a `none` selection models the falsy "All Users" selection. -/

def filteredWorkouts (selectedUser : Option String) (workouts : List Workout) :
    List Workout :=
  match selectedUser with
  | some u => workouts.filter (fun w => w.user_id == u)
  | none => workouts

def filteredGoals (selectedUser : Option String) (goals : List Goal) : List Goal :=
  match selectedUser with
  | some u => goals.filter (fun g => g.user_id == u)
  | none => goals

/-- `const totalWorkouts = filteredWorkouts.length`. -/
def totalWorkouts (selectedUser : Option String) (workouts : List Workout) : Nat :=
  (filteredWorkouts selectedUser workouts).length

/-- `filteredWorkouts.reduce((sum, w) => sum + (w.calories_burned || 0), 0)`;
a missing (or zero) `calories_burned` contributes `0`. -/
def totalCalories (selectedUser : Option String) (workouts : List Workout) : ℚ :=
  (filteredWorkouts selectedUser workouts).foldl
    (fun sum w => sum + w.calories_burned.getD 0) 0

/-- `filteredGoals.filter((g) => g.status === 'active').length`. -/
def activeGoals (selectedUser : Option String) (goals : List Goal) : Nat :=
  ((filteredGoals selectedUser goals).filter (fun g => g.status == "active")).length

/-- `const progress = (goal.current_value / goal.target_value) * 100`. -/
def goalProgress (g : Goal) : ℚ :=
  g.current_value / g.target_value * 100

/-- The rendered progress-bar width: `Math.min(progress, 100)` (the only
place the clamp is applied). -/
def goalProgressBarWidth (g : Goal) : ℚ :=
  min (goalProgress g) 100

/-- The textual percentage shown next to the bar: `Math.round(progress)`
(JavaScript `Math.round` is floor of `x + 1/2`). -/
def displayedGoalPercent (g : Goal) : ℤ :=
  ⌊goalProgress g + 1 / 2⌋

/-- `GoalPredictions` renders its bar with
`Math.min(prediction.progress_percentage, 100)`. -/
def predictionBarWidth (progressPercentage : ℚ) : ℚ :=
  min progressPercentage 100

/-! ## `GoalPredictions` badge (`GoalPredictions` component)

`const isOnTrack = prediction.on_track !== false;` — strict inequality
against the literal `false`, so a missing field counts as on-track. -/

def isOnTrack (p : Prediction) : Bool :=
  !(p.on_track == some false)

def predictionBadge (p : Prediction) : String :=
  if isOnTrack p then "On Track" else "Behind Schedule"

/-! ## API fetch fallbacks (`services/api.js` and the Sidebar)

Each fetch wrapper is modelled as a function of the request's outcome:
`Except.error` is a rejected request, `Except.ok none` a response whose
payload is not of the expected shape (`Array.isArray` fails / field
missing), `Except.ok (some v)` a well-shaped payload. -/

/-- `getWorkouts`: returns `response.data` when it is an array, `[]`
otherwise, and `[]` on any request error. -/
def getWorkouts (outcome : Except String (Option (List Workout))) : List Workout :=
  match outcome with
  | .ok (some ws) => ws
  | .ok none => []
  | .error _ => []

/-- `getGoals`: same fallback shape as `getWorkouts`. -/
def getGoals (outcome : Except String (Option (List Goal))) : List Goal :=
  match outcome with
  | .ok (some gs) => gs
  | .ok none => []
  | .error _ => []

/-- `getUsers`: same fallback shape as `getWorkouts`. -/
def getUsers (outcome : Except String (Option (List User))) : List User :=
  match outcome with
  | .ok (some us) => us
  | .ok none => []
  | .error _ => []

/-- `predictGoals`: on any request error the catch block returns
`{ predictions: [], count: 0, success: false }`. -/
def predictGoals (outcome : Except String PredictGoalsResponse) :
    PredictGoalsResponse :=
  match outcome with
  | .ok r => r
  | .error _ => { predictions := [], count := 0, success := false }

/-- Sidebar `fetchStats`:
`getWorkoutStreak(selectedUser).catch(() => ({ current_streak: 0 }))`. -/
def sidebarStreakFetch (outcome : Except String StreakResponse) : StreakResponse :=
  match outcome with
  | .ok r => r
  | .error _ => { current_streak := some 0 }

/-- Sidebar `stats.streak`: `streakData?.current_streak || 0`. -/
def sidebarStreakStat (r : StreakResponse) : Nat :=
  r.current_streak.getD 0

/-! ## BMI calculator (`BMICalculator` component)

`calculateBMI` reads the `weight` (kg) and `height` (cm) inputs (empty
input modelled as `none`), guards out missing / non-positive values, and
otherwise stores `(weight / heightInMeters²).toFixed(1)` and a category
derived from that one-decimal value.  The component state is the stored
`bmi` / `category` pair. -/

structure BMIState where
  bmi : Option ℚ
  category : String
deriving Repr, DecidableEq

/-- `toFixed(1)` on a positive number: round to the nearest tenth
(`Math`-style, half away from zero is half up here since BMI > 0). -/
def roundTenth (x : ℚ) : ℚ :=
  (⌊x * 10 + 1 / 2⌋ : ℚ) / 10

/-- The body of `calculateBMI`: early-return guard
`if (!weight || !height || weight <= 0 || height <= 0) return;`, then
`heightInMeters = height / 100`,
`calculatedBMI = (weight / (heightInMeters * heightInMeters)).toFixed(1)`,
and the four-way category chain compared against `calculatedBMI`. -/
def calculateBMI (weight height : Option ℚ) (s : BMIState) : BMIState :=
  match weight, height with
  | some w, some h =>
    if w ≤ 0 ∨ h ≤ 0 then s
    else
      let heightInMeters := h / 100
      let calculatedBMI := roundTenth (w / (heightInMeters * heightInMeters))
      { bmi := some calculatedBMI
        category :=
          if calculatedBMI < 18.5 then "Underweight"
          else if 18.5 ≤ calculatedBMI ∧ calculatedBMI < 25 then "Normal"
          else if 25 ≤ calculatedBMI ∧ calculatedBMI < 30 then "Overweight"
          else "Obese" }
  | _, _ => s

/-- The category thresholds applied to the raw (unrounded) BMI value
`weight / (height/100)²`, as the specification's claim words them. -/
def claimedCategory (bmi : ℚ) : String :=
  if bmi < 18.5 then "Underweight"
  else if bmi < 25 then "Normal"
  else if bmi < 30 then "Overweight"
  else "Obese"

/-! ## Streak calculator (analytics backend, modelled from the spec)

The `/analytics/streak` endpoint's implementation is not among the shipped
sources; the definitions below follow the specification §4.1 word for word:
"sort distinct dates descending; walk backward counting consecutive
calendar-day decrements; reset count on any gap >1 day", with the current
streak being the run at the most recent workout day and the longest streak
the maximum running count.  Dates are day numbers (calendar days without
timezone ambiguity, as the spec's invariant states). -/

/-- Modelled from the spec: the missing streak calculator first sorts the
distinct workout dates descending. -/
def sortedDistinctDesc (dates : List Nat) : List Nat :=
  List.insertionSort (· ≥ ·) dates.dedup

/-- Modelled from the spec: counting walk for the current streak — each
consecutive calendar-day decrement extends the run, anything else ends it. -/
def curAux (prev : Nat) : List Nat → Nat
  | [] => 0
  | d :: rest => if prev = d + 1 then 1 + curAux d rest else 0

/-- Modelled from the spec: the current consecutive-day streak ending at the
most recent workout day; `0` on empty input. -/
def currentStreak (dates : List Nat) : Nat :=
  match sortedDistinctDesc dates with
  | [] => 0
  | d :: rest => 1 + curAux d rest

/-- Modelled from the spec: the running counts of the backward walk after
the first date — a consecutive decrement increments the count, any gap
greater than one day resets it to `1`. -/
def walkAux (prev c : Nat) : List Nat → List Nat
  | [] => []
  | d :: rest =>
    if prev = d + 1 then (c + 1) :: walkAux d (c + 1) rest
    else 1 :: walkAux d 1 rest

/-- Modelled from the spec: the full sequence of running counts of the
backward walk, starting at `1` on the most recent date. -/
def walkCounts : List Nat → List Nat
  | [] => []
  | d :: rest => 1 :: walkAux d 1 rest

/-- Modelled from the spec: the longest historical streak is the maximal
running count seen during the walk; `0` on empty input. -/
def longestStreak (dates : List Nat) : Nat :=
  (walkCounts (sortedDistinctDesc dates)).foldr max 0

/-- `n` consecutive calendar days ending at `today`, most recent first. -/
def descRange (today n : Nat) : List Nat :=
  (List.range n).map (fun i => today - i)

/-- Gregorian leap-year test. -/
def isLeap (y : Nat) : Bool :=
  (y % 4 == 0 && y % 100 != 0) || (y % 400 == 0)

/-- Month lengths of a (non-)leap year. -/
def monthLengths (leap : Bool) : List Nat :=
  [31, if leap then 29 else 28, 31, 30, 31, 30, 31, 31, 30, 31, 30, 31]

/-- One-based ordinal of `m`/`d` within year `y`. -/
def dayOfYear (y m d : Nat) : Nat :=
  ((monthLengths (isLeap y)).take (m - 1)).sum + d

/-- Calendar date → absolute day number (proleptic Gregorian, day 1 =
0001-01-01); consecutive calendar days get consecutive numbers. -/
def civilToDays (y m d : Nat) : Nat :=
  365 * (y - 1) + (y - 1) / 4 - (y - 1) / 100 + (y - 1) / 400 + dayOfYear y m d

/-! ## Goal projection (analytics backend, modelled from the spec)

Specification §4.2: linear extrapolation of the days remaining to reach the
target given the historical rate of change, an on-track flag comparing the
projected completion date to the deadline, edge cases "zero historical rate
→ cannot project" and "already met target → 100%, on-track true". -/

/-- Modelled from the spec: the outcome of the missing goal-projection
endpoint — either "cannot project" or a projected completion with its
progress percentage, estimated days remaining and on-track flag. -/
inductive Projection where
  | cannotProject : Projection
  | projected (progressPercentage daysRemaining : ℚ) (onTrack : Bool) : Projection
deriving Repr, DecidableEq

/-- Modelled from the spec: the missing goal-projection computation.  A goal
whose target is already met reports 100% / on-track regardless of the rate;
with a zero measured rate nothing can be projected; otherwise the days
remaining are linearly extrapolated and the flag compares the projected
completion date with the deadline. -/
def projectGoal (currentValue targetValue rate : ℚ) (today deadline : ℤ) :
    Projection :=
  if targetValue ≤ currentValue then
    .projected 100 0 true
  else if rate = 0 then
    .cannotProject
  else
    let daysRemaining := (targetValue - currentValue) / rate
    let predictedDate := (today : ℚ) + daysRemaining
    .projected (currentValue / targetValue * 100) daysRemaining
      (decide (predictedDate ≤ (deadline : ℚ)))

/-! ## Specification-side characterisations used for refinement statements -/

/-- Whether a workout belongs to the current selection ("All Users" when
`none`). -/
def matchesUser (selectedUser : Option String) (w : Workout) : Bool :=
  match selectedUser with
  | some u => w.user_id == u
  | none => true

/-- Spec-side workout count: the number of fetched workouts matching the
selected user (all of them when no user is selected). -/
def specWorkoutCount (selectedUser : Option String) (ws : List Workout) : Nat :=
  match selectedUser with
  | some u => ws.countP (fun w => w.user_id == u)
  | none => ws.length

/-- Spec-side calorie total: the sum of `calories_burned` (missing counted
as `0`) over exactly the matching workouts. -/
def specCaloriesSum (selectedUser : Option String) (ws : List Workout) : ℚ :=
  (ws.map (fun w => if matchesUser selectedUser w then w.calories_burned.getD 0 else 0)).sum

/-! ## Theorems -/

/-- C1: for every goal with positive `target_value` the displayed progress
is `current_value / target_value * 100` (stated multiplicatively, so the
division is exact), the clamp appears only in the rendered bar width
`min(progress, 100)`, the width is never clamped when the goal is not yet
exceeded, and an overshooting goal displays a progress above 100% while its
bar width is exactly 100.  The same `min(·, 100)` clamp is what
`GoalPredictions` applies to `progress_percentage`.  The computation is a
pure function of the goal record, so the underlying `current_value` and
`target_value` are untouched. -/
theorem goal_progress_clamped_display (g : Goal) (ht : 0 < g.target_value) :
    goalProgress g * g.target_value = g.current_value * 100 ∧
    goalProgressBarWidth g = min (goalProgress g) 100 ∧
    goalProgressBarWidth g ≤ 100 ∧
    (g.current_value ≤ g.target_value → goalProgressBarWidth g = goalProgress g) ∧
    (g.target_value < g.current_value →
      100 < goalProgress g ∧ goalProgressBarWidth g = 100) ∧
    (∀ p : ℚ, predictionBarWidth p ≤ 100 ∧ (p ≤ 100 → predictionBarWidth p = p)) := by
  have htne : g.target_value ≠ 0 := ne_of_gt ht
  refine ⟨?_, rfl, min_le_right _ _, ?_, ?_, ?_⟩
  · unfold goalProgress
    field_simp
  · intro hc
    have h1 : goalProgress g ≤ 100 := by
      unfold goalProgress
      rw [div_mul_eq_mul_div, div_le_iff₀ ht]
      nlinarith
    exact min_eq_left h1
  · intro hc
    have h1 : 100 < goalProgress g := by
      unfold goalProgress
      rw [div_mul_eq_mul_div, lt_div_iff₀ ht]
      nlinarith
    exact ⟨h1, min_eq_right h1.le⟩
  · intro p
    exact ⟨min_le_right _ _, fun hp => min_eq_left hp⟩

/-- Witness for C1 at the concrete overshooting goal
`current_value = 150, target_value = 100`. -/
theorem goal_progress_clamped_display_witness :
    (0 : ℚ) < 100 ∧
    100 < goalProgress ⟨"u1", 150, 100, "active"⟩ ∧
    goalProgressBarWidth ⟨"u1", 150, 100, "active"⟩ = 100 := by
  have h :=
    (goal_progress_clamped_display ⟨"u1", 150, 100, "active"⟩ (by norm_num)).2.2.2.2.1
      (by norm_num)
  exact ⟨by norm_num, h.1, h.2⟩

/-- C2: every failing fetch yields a zero-valued / neutral result instead of
propagating the error: `getWorkouts`, `getGoals` and `getUsers` return the
empty list on any request error (and on a non-array payload),
`predictGoals` falls back to an empty `predictions` list with `count = 0`,
and the sidebar streak fetch falls back to `current_streak = 0`. -/
theorem fetch_fallbacks_neutral (e : String) :
    getWorkouts (.error e) = [] ∧
    getGoals (.error e) = [] ∧
    getUsers (.error e) = [] ∧
    predictGoals (.error e) = ⟨[], 0, false⟩ ∧
    (predictGoals (.error e)).predictions = [] ∧
    (predictGoals (.error e)).count = 0 ∧
    sidebarStreakStat (sidebarStreakFetch (.error e)) = 0 ∧
    getWorkouts (.ok none) = [] ∧
    getGoals (.ok none) = [] ∧
    getUsers (.ok none) = [] ∧
    sidebarStreakStat ⟨none⟩ = 0 :=
  ⟨rfl, rfl, rfl, rfl, rfl, rfl, rfl, rfl, rfl, rfl, rfl⟩

/-- C6: a goal whose current value meets or exceeds its target is projected
as 100% progress and on-track, for every rate, date and deadline. -/
theorem projection_target_met (c t rate : ℚ) (today deadline : ℤ)
    (h : t ≤ c) :
    projectGoal c t rate today deadline = .projected 100 0 true := by
  unfold projectGoal
  rw [if_pos h]

/-- Witness for C6: an already-met goal (`current = target = 100`) with a
negative historical rate is still reported 100% / on-track. -/
theorem projection_target_met_witness :
    (100 : ℚ) ≤ 100 ∧
    projectGoal 100 100 (-3) 0 30 = .projected 100 0 true :=
  ⟨le_refl _, projection_target_met 100 100 (-3) 0 30 (le_refl _)⟩

/-- C7: with a zero measured rate of change and an unmet target, the
projection reports "cannot project"; the division by the rate is never
reached (the function is total, so no divide-by-zero error can occur). -/
theorem projection_zero_rate (c t : ℚ) (today deadline : ℤ) (h : c < t) :
    projectGoal c t 0 today deadline = .cannotProject := by
  unfold projectGoal
  rw [if_neg (not_le.mpr h), if_pos rfl]

/-- Witness for C7 at `current = 50, target = 100`. -/
theorem projection_zero_rate_witness :
    (50 : ℚ) < 100 ∧ projectGoal 50 100 0 0 30 = .cannotProject :=
  ⟨by norm_num, projection_zero_rate 50 100 0 30 (by norm_num)⟩

/-- C10: a prediction is rendered "On Track" exactly when its `on_track`
field is not strictly equal to `false`; a missing field therefore displays
as on-track, and only `on_track === false` yields "Behind Schedule". -/
theorem on_track_badge (p : Prediction) :
    (predictionBadge p = "On Track" ↔ p.on_track ≠ some false) ∧
    (predictionBadge p = "Behind Schedule" ↔ p.on_track = some false) ∧
    predictionBadge ⟨none⟩ = "On Track" ∧
    isOnTrack ⟨none⟩ = true := by
  rcases p with ⟨o⟩
  rcases o with _ | b
  · exact ⟨by simp [predictionBadge, isOnTrack], by simp [predictionBadge, isOnTrack],
      rfl, rfl⟩
  · cases b
    · exact ⟨by simp [predictionBadge, isOnTrack], by simp [predictionBadge, isOnTrack],
        rfl, rfl⟩
    · exact ⟨by simp [predictionBadge, isOnTrack], by simp [predictionBadge, isOnTrack],
        rfl, rfl⟩

/-- Folding `+ f w` over a list starting from `init` is `init` plus the sum
of the mapped values. -/
lemma foldl_add_eq_sum (f : Workout → ℚ) :
    ∀ (ws : List Workout) (init : ℚ),
      ws.foldl (fun s w => s + f w) init = init + (ws.map f).sum := by
  intro ws
  induction ws with
  | nil => intro init; simp
  | cons w rest ih =>
    intro init
    simp only [List.foldl_cons, List.map_cons, List.sum_cons, ih]
    ring

/-- Summing `f` over a filtered list equals summing the `if`-guarded value
over the whole list. -/
lemma sum_map_filter (p : Workout → Bool) (f : Workout → ℚ) :
    ∀ ws : List Workout,
      ((ws.filter p).map f).sum = (ws.map (fun w => if p w then f w else 0)).sum := by
  intro ws
  induction ws with
  | nil => rfl
  | cons w rest ih =>
    by_cases hw : p w
    · simp [List.filter_cons, hw, ih]
    · simp [List.filter_cons, hw, ih]

/-- C9: the Dashboard's Total Workouts statistic equals the number of
fetched workouts whose `user_id` matches the selected user (all workouts
when no user is selected), and Calories Burned is the sum of
`calories_burned` over exactly those workouts, missing values counting as
zero. -/
theorem dashboard_totals (selectedUser : Option String) (ws : List Workout) :
    totalWorkouts selectedUser ws = specWorkoutCount selectedUser ws ∧
    totalCalories selectedUser ws = specCaloriesSum selectedUser ws := by
  constructor
  · cases selectedUser with
    | none => rfl
    | some u =>
      simp only [totalWorkouts, filteredWorkouts, specWorkoutCount]
      rw [List.countP_eq_length_filter]
  · cases selectedUser with
    | none =>
      unfold totalCalories filteredWorkouts specCaloriesSum matchesUser
      rw [foldl_add_eq_sum, zero_add]
      simp
    | some u =>
      unfold totalCalories filteredWorkouts specCaloriesSum matchesUser
      rw [foldl_add_eq_sum, zero_add, sum_map_filter]

/-- C3: the streak computation returns `(0, 0)` on an empty date set, and an
empty date set is the only input with current streak `0` (any workout at
all yields a positive streak — no other degenerate case exists). -/
theorem streak_empty :
    currentStreak [] = 0 ∧ longestStreak [] = 0 ∧
    ∀ dates : List Nat, (currentStreak dates = 0 ↔ dates = []) := by
  refine ⟨rfl, rfl, fun dates => ⟨fun h => ?_, fun h => by subst h; rfl⟩⟩
  cases hs : sortedDistinctDesc dates with
  | nil =>
    have hlen := (List.perm_insertionSort (· ≥ ·) dates.dedup).length_eq
    rw [show List.insertionSort (· ≥ ·) dates.dedup = sortedDistinctDesc dates from rfl,
      hs] at hlen
    exact (List.dedup_eq_nil dates).mp (List.length_eq_zero.mp hlen.symm)
  | cons d rest =>
    simp only [currentStreak, hs] at h
    omega

lemma descRange_succ (t k : Nat) :
    descRange t (k + 1) = t :: descRange (t - 1) k := by
  unfold descRange
  rw [List.range_succ_eq_map]
  simp only [List.map_cons, Nat.sub_zero, List.map_map]
  refine congrArg _ (List.map_congr_left ?_)
  intro i _
  simp only [Function.comp_apply, Nat.succ_eq_add_one]
  omega

lemma descRange_nodup (t n : Nat) (h : n ≤ t + 1) : (descRange t n).Nodup := by
  refine List.Nodup.map_on ?_ (List.nodup_range n)
  intro i hi j hj hij
  have hi' := List.mem_range.mp hi
  have hj' := List.mem_range.mp hj
  omega

lemma descRange_sorted (t n : Nat) : (descRange t n).Sorted (· ≥ ·) := by
  unfold descRange List.Sorted
  rw [List.pairwise_map]
  exact (List.pairwise_lt_range n).imp (fun hij => by omega)

lemma sortedDistinctDesc_eq_self {l : List Nat} (hn : l.Nodup)
    (hs : l.Sorted (· ≥ ·)) : sortedDistinctDesc l = l := by
  unfold sortedDistinctDesc
  rw [List.dedup_eq_self.mpr hn]
  exact hs.insertionSort_eq

lemma curAux_descRange : ∀ (k t : Nat), k ≤ t →
    curAux t (descRange (t - 1) k) = k := by
  intro k
  induction k with
  | zero => intro t _; rfl
  | succ k ih =>
    intro t ht
    rw [descRange_succ, curAux, if_pos (by omega : t = (t - 1) + 1)]
    rw [ih (t - 1) (by omega)]
    omega

lemma walkAux_descRange_foldr : ∀ (k t c : Nat), k ≤ t →
    (walkAux t c (descRange (t - 1) k)).foldr max 0 =
      if k = 0 then 0 else c + k := by
  intro k
  induction k with
  | zero => intro t c _; rfl
  | succ k ih =>
    intro t c ht
    rw [descRange_succ, walkAux, if_pos (by omega : t = (t - 1) + 1)]
    rw [List.foldr_cons, ih (t - 1) (c + 1) (by omega)]
    rcases Nat.eq_zero_or_pos k with hk | hk
    · subst hk
      simp
    · rw [if_neg (by omega), if_neg (by omega), max_eq_right (by omega)]
      omega

/-- C4: for every `n > 0` consecutive calendar days ending at any day
`today`, the streak computation returns current streak `n` (and longest
streak `n`); in particular the dates 2024-01-01 … 2024-01-05 give
`current_streak = 5` and `longest_streak = 5`. -/
theorem streak_contiguous :
    (∀ today n : Nat, 0 < n → n ≤ today + 1 →
      currentStreak (descRange today n) = n ∧
      longestStreak (descRange today n) = n) ∧
    currentStreak [civilToDays 2024 1 1, civilToDays 2024 1 2,
      civilToDays 2024 1 3, civilToDays 2024 1 4, civilToDays 2024 1 5] = 5 ∧
    longestStreak [civilToDays 2024 1 1, civilToDays 2024 1 2,
      civilToDays 2024 1 3, civilToDays 2024 1 4, civilToDays 2024 1 5] = 5 := by
  refine ⟨?_, by decide, by decide⟩
  intro today n hn hle
  obtain ⟨k, rfl⟩ : ∃ k, n = k + 1 := ⟨n - 1, by omega⟩
  have hsd : sortedDistinctDesc (descRange today (k + 1)) = descRange today (k + 1) :=
    sortedDistinctDesc_eq_self (descRange_nodup today (k + 1) hle)
      (descRange_sorted today (k + 1))
  constructor
  · simp only [currentStreak, hsd]
    rw [descRange_succ]
    show 1 + curAux today (descRange (today - 1) k) = k + 1
    rw [curAux_descRange k today (by omega)]
    omega
  · simp only [longestStreak, hsd]
    rw [descRange_succ]
    simp only [walkCounts]
    rw [List.foldr_cons, walkAux_descRange_foldr k today 1 (by omega)]
    rcases Nat.eq_zero_or_pos k with hk | hk
    · subst hk
      simp
    · rw [if_neg (by omega), max_eq_right (by omega)]
      omega

/-- Witness for C4 at `today = 10`, `n = 3`. -/
theorem streak_contiguous_witness :
    0 < 3 ∧ 3 ≤ 10 + 1 ∧
    currentStreak (descRange 10 3) = 3 ∧ longestStreak (descRange 10 3) = 3 :=
  ⟨by decide, by decide,
    (streak_contiguous.1 10 3 (by decide) (by decide)).1,
    (streak_contiguous.1 10 3 (by decide) (by decide)).2⟩

lemma walkAux_gap : ∀ (l : List Nat) (prev c i a b : Nat),
    l[i]? = some a → l[i + 1]? = some b → b + 1 < a →
    (walkAux prev c l)[i + 1]? = some 1 := by
  intro l
  induction l with
  | nil =>
    intro prev c i a b ha _ _
    simp at ha
  | cons d rest ih =>
    intro prev c i a b ha hb hgap
    cases i with
    | zero =>
      simp only [List.getElem?_cons_zero, Option.some.injEq] at ha
      simp only [List.getElem?_cons_succ] at hb
      cases rest with
      | nil => simp at hb
      | cons e rest2 =>
        simp only [List.getElem?_cons_zero, Option.some.injEq] at hb
        have hde : d ≠ e + 1 := by omega
        by_cases hpd : prev = d + 1 <;>
          simp [walkAux, hpd, hde]
    | succ j =>
      simp only [List.getElem?_cons_succ] at ha hb
      by_cases hpd : prev = d + 1
      · rw [walkAux, if_pos hpd, List.getElem?_cons_succ]
        exact ih d (c + 1) j a b ha hb hgap
      · rw [walkAux, if_neg hpd, List.getElem?_cons_succ]
        exact ih d 1 j a b ha hb hgap

lemma walkCounts_gap : ∀ (ds : List Nat) (i a b : Nat),
    ds[i]? = some a → ds[i + 1]? = some b → b + 1 < a →
    (walkCounts ds)[i + 1]? = some 1 := by
  intro ds i a b ha hb hgap
  cases ds with
  | nil => simp at ha
  | cons d rest =>
    cases i with
    | zero =>
      simp only [List.getElem?_cons_zero, Option.some.injEq] at ha
      simp only [List.getElem?_cons_succ] at hb
      cases rest with
      | nil => simp at hb
      | cons e rest2 =>
        simp only [List.getElem?_cons_zero, Option.some.injEq] at hb
        have hde : d ≠ e + 1 := by omega
        simp [walkCounts, walkAux, hde]
    | succ j =>
      simp only [List.getElem?_cons_succ] at ha hb
      simp only [walkCounts, List.getElem?_cons_succ]
      exact walkAux_gap rest d 1 j a b ha hb hgap

/-- C5: the streak computation operates on the distinct workout dates
sorted descending (the sorted list is descending, duplicate-free and has
exactly the input's dates), and along the backward walk any gap of more
than one calendar day resets the running count to `1` at the position
immediately after the gap. -/
theorem streak_gap_resets :
    (∀ dates : List Nat,
      (sortedDistinctDesc dates).Sorted (· ≥ ·) ∧
      (sortedDistinctDesc dates).Nodup ∧
      (∀ x, x ∈ sortedDistinctDesc dates ↔ x ∈ dates)) ∧
    (∀ (dates : List Nat) (i a b : Nat),
      (sortedDistinctDesc dates)[i]? = some a →
      (sortedDistinctDesc dates)[i + 1]? = some b →
      b + 1 < a →
      (walkCounts (sortedDistinctDesc dates))[i + 1]? = some 1) := by
  constructor
  · intro dates
    refine ⟨List.sorted_insertionSort _ _, ?_, ?_⟩
    · exact ((List.perm_insertionSort (· ≥ ·) dates.dedup).nodup_iff).mpr
        (List.nodup_dedup dates)
    · intro x
      exact ((List.perm_insertionSort (· ≥ ·) dates.dedup).mem_iff).trans
        (List.mem_dedup)
  · intro dates i a b ha hb hgap
    exact walkCounts_gap (sortedDistinctDesc dates) i a b ha hb hgap

/-- Witness for C5 on the date set `{10, 9, 7}`: the gap between `9` and
`7` resets the running count to `1` at the position of `7`. -/
theorem streak_gap_resets_witness :
    (sortedDistinctDesc [10, 9, 7])[1]? = some 9 ∧
    (sortedDistinctDesc [10, 9, 7])[2]? = some 7 ∧
    7 + 1 < 9 ∧
    (walkCounts (sortedDistinctDesc [10, 9, 7]))[2]? = some 1 :=
  ⟨by decide, by decide, by decide,
    streak_gap_resets.2 [10, 9, 7] 1 9 7 (by decide) (by decide) (by decide)⟩

/-- Counterexample to C8 as stated: at weight 24.96 kg and height 100 cm
the raw BMI is 24.96, which the claim's thresholds place in "Normal"
(18.5 ≤ 24.96 < 25), but the code categorises the `toFixed(1)` value 25.0
and stores "Overweight". -/
theorem calculateBMI_raw_threshold_counterexample :
    (0 : ℚ) < 2496 / 100 ∧ (0 : ℚ) < 100 ∧
    claimedCategory ((2496 / 100 : ℚ) / ((100 / 100) * (100 / 100))) = "Normal" ∧
    (calculateBMI (some (2496 / 100)) (some 100) ⟨none, ""⟩).category =
      "Overweight" := by
  refine ⟨by norm_num, by norm_num, by norm_num [claimedCategory], ?_⟩
  norm_num [calculateBMI, roundTenth, Int.floor_eq_iff]

/-- C8 (amended): `calculateBMI` is total and division-safe — missing,
zero or negative weight or height leaves the state untouched; otherwise
the denominator `(height/100)²` is strictly positive, the stored BMI is
`weight / (height/100)²` rounded to one decimal (the `toFixed(1)` display
value), and exactly one of the four categories is assigned, with the
thresholds applied to that rounded value. -/
theorem calculateBMI_total_safe (w h : ℚ) (s : BMIState) :
    (calculateBMI none (some h) s = s ∧ calculateBMI (some w) none s = s ∧
      calculateBMI none none s = s) ∧
    ((w ≤ 0 ∨ h ≤ 0) → calculateBMI (some w) (some h) s = s) ∧
    (0 < w → 0 < h →
      0 < h / 100 * (h / 100) ∧
      (calculateBMI (some w) (some h) s).bmi =
        some (roundTenth (w / (h / 100 * (h / 100)))) ∧
      ((calculateBMI (some w) (some h) s).category = "Underweight" ↔
        roundTenth (w / (h / 100 * (h / 100))) < 18.5) ∧
      ((calculateBMI (some w) (some h) s).category = "Normal" ↔
        18.5 ≤ roundTenth (w / (h / 100 * (h / 100))) ∧
          roundTenth (w / (h / 100 * (h / 100))) < 25) ∧
      ((calculateBMI (some w) (some h) s).category = "Overweight" ↔
        25 ≤ roundTenth (w / (h / 100 * (h / 100))) ∧
          roundTenth (w / (h / 100 * (h / 100))) < 30) ∧
      ((calculateBMI (some w) (some h) s).category = "Obese" ↔
        30 ≤ roundTenth (w / (h / 100 * (h / 100)))) ∧
      ((calculateBMI (some w) (some h) s).category = "Underweight" ∨
        (calculateBMI (some w) (some h) s).category = "Normal" ∨
        (calculateBMI (some w) (some h) s).category = "Overweight" ∨
        (calculateBMI (some w) (some h) s).category = "Obese")) := by
  refine ⟨⟨rfl, rfl, rfl⟩, ?_, ?_⟩
  · intro hg
    simp only [calculateBMI, if_pos hg]
  · intro hw hh
    have hg : ¬(w ≤ 0 ∨ h ≤ 0) := by
      push_neg
      exact ⟨hw, hh⟩
    have hden : 0 < h / 100 * (h / 100) := by positivity
    refine ⟨hden, ?_, ?_⟩
    · simp only [calculateBMI, if_neg hg]
    · simp only [calculateBMI, if_neg hg]
      set b := roundTenth (w / (h / 100 * (h / 100))) with hb
      split_ifs with h1 h2 h3
    -- b < 18.5
      · refine ⟨by simp [h1], ?_, ?_, ?_, Or.inl rfl⟩
        · simp only [show ("Underweight" : String) ≠ "Normal" from by decide,
            false_iff]
          rintro ⟨h18, -⟩
          linarith
        · simp only [show ("Underweight" : String) ≠ "Overweight" from by decide,
            false_iff]
          rintro ⟨h25, -⟩
          linarith
        · simp only [show ("Underweight" : String) ≠ "Obese" from by decide,
            false_iff]
          intro h30
          linarith
    -- 18.5 ≤ b < 25
      · refine ⟨?_, by simp [h2], ?_, ?_, Or.inr (Or.inl rfl)⟩
        · simp only [show ("Normal" : String) ≠ "Underweight" from by decide,
            false_iff, not_lt]
          exact h2.1
        · simp only [show ("Normal" : String) ≠ "Overweight" from by decide,
            false_iff]
          rintro ⟨h25, -⟩
          linarith [h2.2]
        · simp only [show ("Normal" : String) ≠ "Obese" from by decide,
            false_iff, not_le]
          linarith [h2.2]
    -- 25 ≤ b < 30
      · refine ⟨?_, ?_, by simp [h3], ?_, Or.inr (Or.inr (Or.inl rfl))⟩
        · simp only [show ("Overweight" : String) ≠ "Underweight" from by decide,
            false_iff, not_lt]
          linarith [h3.1]
        · simp only [show ("Overweight" : String) ≠ "Normal" from by decide,
            false_iff]
          rintro ⟨-, h25⟩
          linarith [h3.1]
        · simp only [show ("Overweight" : String) ≠ "Obese" from by decide,
            false_iff, not_le]
          linarith [h3.2]
    -- everything else: b ≥ 30
      · push_neg at h1 h2 h3
        have h30 : 30 ≤ b := h3 (h2 h1)
        refine ⟨?_, ?_, ?_, by simp [h30], Or.inr (Or.inr (Or.inr rfl))⟩
        · simp only [show ("Obese" : String) ≠ "Underweight" from by decide,
            false_iff, not_lt]
          exact h1
        · simp only [show ("Obese" : String) ≠ "Normal" from by decide,
            false_iff]
          rintro ⟨-, h25⟩
          linarith
        · simp only [show ("Obese" : String) ≠ "Overweight" from by decide,
            false_iff]
          rintro ⟨-, h29⟩
          linarith

/-- Witness for C8 (amended) at weight 70 kg, height 175 cm: the guard
passes, the stored BMI is 22.9 and the category "Normal". -/
theorem calculateBMI_total_safe_witness :
    (0 : ℚ) < 70 ∧ (0 : ℚ) < 175 ∧
    (calculateBMI (some 70) (some 175) ⟨none, ""⟩).bmi = some (229 / 10) ∧
    (calculateBMI (some 70) (some 175) ⟨none, ""⟩).category = "Normal" := by
  have h := (calculateBMI_total_safe 70 175 ⟨none, ""⟩).2.2 (by norm_num) (by norm_num)
  have hround : roundTenth ((70 : ℚ) / (175 / 100 * (175 / 100))) = 229 / 10 := by
    norm_num [roundTenth, Int.floor_eq_iff]
  refine ⟨by norm_num, by norm_num, ?_, ?_⟩
  · rw [h.2.1, hround]
  · exact (h.2.2.2.1).mpr (by rw [hround]; norm_num)

/-- Witness for C2 at a concrete error value. -/
theorem fetch_fallbacks_neutral_witness :
    getWorkouts (.error "network error") = [] ∧
    sidebarStreakStat (sidebarStreakFetch (.error "network error")) = 0 :=
  ⟨(fetch_fallbacks_neutral "network error").1,
    (fetch_fallbacks_neutral "network error").2.2.2.2.2.2.1⟩

/-- Witness for C3: the empty set gives streak 0 and a singleton does not. -/
theorem streak_empty_witness :
    currentStreak [] = 0 ∧ (currentStreak [5] = 0 ↔ ([5] : List Nat) = []) :=
  ⟨streak_empty.1, streak_empty.2.2 [5]⟩

/-- Witness for C9 on a concrete workout list with a selected user. -/
theorem dashboard_totals_witness :
    totalWorkouts (some "u1") [⟨"u1", some 100⟩, ⟨"u2", some 50⟩, ⟨"u1", none⟩] =
      specWorkoutCount (some "u1") [⟨"u1", some 100⟩, ⟨"u2", some 50⟩, ⟨"u1", none⟩] ∧
    totalCalories (some "u1") [⟨"u1", some 100⟩, ⟨"u2", some 50⟩, ⟨"u1", none⟩] =
      specCaloriesSum (some "u1") [⟨"u1", some 100⟩, ⟨"u2", some 50⟩, ⟨"u1", none⟩] :=
  dashboard_totals (some "u1") [⟨"u1", some 100⟩, ⟨"u2", some 50⟩, ⟨"u1", none⟩]

/-- Witness for C10 at the two decisive field values. -/
theorem on_track_badge_witness :
    predictionBadge ⟨some false⟩ = "Behind Schedule" ∧
    predictionBadge ⟨none⟩ = "On Track" :=
  ⟨(on_track_badge ⟨some false⟩).2.1.mpr rfl, (on_track_badge ⟨none⟩).2.2.1⟩

end FitnessTracker
